import Mathlib

/-!
Shallow embedding of the Trend & Matchup Intelligence Engine of
`src/nba_app.py` (the only source file of the repository).

Conventions of the embedding:
* pandas DataFrames become lists of structures whose field names follow the
  DataFrame column names;
* python dicts become association lists `List (key × value)` with python's
  insertion semantics (`dict_insert`: overwrite in place, else append) and
  lookup via `List.lookup` (keys are unique under `dict_insert`, so first
  match is the dict entry);
* floating point statistics and ratings become rationals `ℚ` (the constants
  involved — 4.0, 2.0, -3.0, -1.5, 116.0, 112.0, 114.0 — are all exactly
  representable, so the comparisons agree with the python floats);
* team identifiers are modelled as the strings they print as, since the form
  of the identifier (integer-string vs float-like string) is what the spec's
  normalization requirement is about;
* a python function that may raise becomes `Except String`; a `try/except`
  returning a default becomes a `match` on that `Except`.
-/

/-- One row of the season-window `LeagueDashPlayerStats` frame, restricted to
the columns selected at line 118 of `nba_app.py`. -/
structure SeasonRow where
  PLAYER_ID : Nat
  PLAYER_NAME : String
  TEAM_ID : String
  PTS : ℚ
  REB : ℚ
  AST : ℚ
deriving DecidableEq

/-- One row of the last-5-games `LeagueDashPlayerStats` frame: the `GP` column
(used by the filter at line 113) plus the columns selected at line 119. -/
structure L5Row where
  PLAYER_ID : Nat
  GP : Nat
  PTS : ℚ
  REB : ℚ
  AST : ℚ
deriving DecidableEq

/-- A defense-table entry, the dict `{'Team': ..., 'Rating': ...}` read at
lines 141-142 of `nba_app.py`. -/
structure DefEntry where
  Team : String
  Rating : ℚ
deriving DecidableEq

/-- One row of the `ScoreboardV2` game-header frame (lines 197-198). -/
structure GameRow where
  HOME_TEAM_ID : String
  VISITOR_TEAM_ID : String
deriving DecidableEq

/-- Python dict assignment `d[k] = v` on an association list: overwrite the
existing entry for `k` in place, otherwise append a new entry. -/
def dict_insert (d : List (String × String)) (k v : String) :
    List (String × String) :=
  if d.any fun p => p.1 == k then
    d.map fun p => if p.1 == k then (k, v) else p
  else
    d ++ [(k, v)]

/-- Python `startswith` on character lists (helper for substring test). -/
def list_starts : List Char → List Char → Bool
  | [], _ => true
  | _ :: _, [] => false
  | a :: as, b :: bs => a == b && list_starts as bs

/-- Python's `needle in hay` substring test on character lists. -/
def occursIn (needle : List Char) : List Char → Bool
  | [] => needle.isEmpty
  | c :: cs => list_starts needle (c :: cs) || occursIn needle cs

/-- Python's `official_name in dirty_name` on strings (line 88). -/
def str_in (needle hay : String) : Bool :=
  occursIn needle.toList hay.toList

/-- Processing of one injury-table row (lines 79-94 of `get_live_injuries`):
scan the roster map in order; the first canonical name that is a substring of
the raw name wins and contributes its team code; otherwise the raw name is
kept with team "Unknown". Returns the `(key, value)` pair stored into the
`injuries` dict. -/
def injury_row_entry (team_map : List (String × String))
    (dirty_name status : String) : String × String :=
  match team_map.find? fun p => str_in p.1 dirty_name with
  | some (official_name, team) => (official_name, status ++ " (" ++ team ++ ")")
  | none => (dirty_name, status ++ " (Unknown)")

/-- The dict built by `get_live_injuries` from the rows of the injury tables
(each row is the pair of its `Player` and `Injury Status` cells). -/
def get_live_injuries (team_map : List (String × String))
    (rows : List (String × String)) : List (String × String) :=
  rows.foldl
    (fun injuries r =>
      let e := injury_row_entry team_map r.1 r.2
      dict_insert injuries e.1 e.2)
    []

/-- The loop body of `get_todays_games` (lines 196-202): store both
directions of the pairing, `games[home] = visitor` then
`games[visitor] = home`, with the row's id cells used verbatim. -/
def schedule_insert (games : List (String × String)) (row : GameRow) :
    List (String × String) :=
  dict_insert (dict_insert games row.HOME_TEAM_ID row.VISITOR_TEAM_ID)
    row.VISITOR_TEAM_ID row.HOME_TEAM_ID

/-- `get_todays_games` (lines 182-206): compute "today" once in US/Eastern,
fetch the scoreboard for that single date, and build the symmetric
`{team_id: opponent_id}` dict; any fetch error yields the empty dict.
`today` is the already-formatted date string; `scoreboard` is the external
`ScoreboardV2` fetch, one call per date string. -/
def get_todays_games (today : String)
    (scoreboard : String → Except String (List GameRow)) :
    List (String × String) :=
  match scoreboard today with
  | Except.error _ => []
  | Except.ok board =>
    if board.isEmpty then []
    else board.foldl schedule_insert []

/-- The 30 statically-known NBA team identifiers (the ids of
`nba_api.stats.static`, 1610612737 … 1610612766), in canonical
integer-string form. -/
def STATIC_TEAMS : List String :=
  ["1610612737", "1610612738", "1610612739", "1610612740", "1610612741",
   "1610612742", "1610612743", "1610612744", "1610612745", "1610612746",
   "1610612747", "1610612748", "1610612749", "1610612750", "1610612751",
   "1610612752", "1610612753", "1610612754", "1610612755", "1610612756",
   "1610612757", "1610612758", "1610612759", "1610612760", "1610612761",
   "1610612762", "1610612763", "1610612764", "1610612765", "1610612766"]

/-- Modelled from the spec: `get_defensive_rankings` is called at line 128 of
`nba_app.py` but is defined nowhere in the repository; §4.4 of the spec gives
its contract — one entry per statically-known team (30), primary source the
live per-team defensive-efficiency figures, and on fetch failure a synthesized
entry per known team with the fixed neutral rating 114.0. `live` is `some`
of the live rating assignment when the fetch succeeds and `none` when it
fails. -/
def get_defensive_rankings (live : Option (String → DefEntry)) :
    List (String × DefEntry) :=
  STATIC_TEAMS.map fun tid =>
    (tid,
      match live with
      | some ratings => ratings tid
      | none => { Team := tid, Rating := 114.0 })

/-- `analyze_matchup` (lines 130-151), as a function of the `TEAM_ID` cell of
the row it is applied to: not playing today ⇒ "No Game"; opponent without a
defense entry ⇒ "vs Unknown"; otherwise classify the opponent's rating. -/
def analyze_matchup (games : List (String × String))
    (defense : List (String × DefEntry)) (my_team : String) : String :=
  match games.lookup my_team with
  | none => "No Game"
  | some opponent_id =>
    match defense.lookup opponent_id with
    | some e =>
      if e.Rating > 116.0 then "vs " ++ e.Team ++ " (🟢 Soft)"
      else if e.Rating < 112.0 then "vs " ++ e.Team ++ " (🔴 Tough)"
      else "vs " ++ e.Team ++ " (⚪ Avg)"
    | none => "vs Unknown"

/-- `get_status` (lines 163-169), as a function of the `Trend (Delta)` cell:
the hot/cold bucket labels, tested top-down exactly as in the source. -/
def get_status (d : ℚ) : String :=
  if d ≥ 4.0 then "🔥 Super Hot"
  else if d ≥ 2.0 then "🔥 Heating Up"
  else if d ≤ -3.0 then "❄️ Ice Cold"
  else if d ≤ -1.5 then "❄️ Cooling Down"
  else "Zap"

/-- One row of the inner-merge of the two stat frames on `PLAYER_ID`
(lines 117-122) together with the `Trend (Delta)` column added at line 124. -/
structure MergedRow where
  PLAYER_ID : Nat
  PLAYER_NAME : String
  TEAM_ID : String
  PTS_Season : ℚ
  REB_Season : ℚ
  AST_Season : ℚ
  PTS_L5 : ℚ
  REB_L5 : ℚ
  AST_L5 : ℚ
  delta : ℚ
deriving DecidableEq

/-- The merged row built from a season row and a last-5 row with the same
`PLAYER_ID`; `delta` is the `Trend (Delta)` column, `PTS_L5 - PTS_Season`. -/
def merge_row (s : SeasonRow) (l : L5Row) : MergedRow :=
  { PLAYER_ID := s.PLAYER_ID
    PLAYER_NAME := s.PLAYER_NAME
    TEAM_ID := s.TEAM_ID
    PTS_Season := s.PTS
    REB_Season := s.REB
    AST_Season := s.AST
    PTS_L5 := l.PTS
    REB_L5 := l.REB
    AST_L5 := l.AST
    delta := l.PTS - s.PTS }

/-- `pd.merge(..., on='PLAYER_ID')`: inner join, left frame order first, each
season row paired with every matching last-5 row. -/
def merge_frames (season : List SeasonRow) (last5 : List L5Row) :
    List MergedRow :=
  season.flatMap fun s =>
    (last5.filter fun l => s.PLAYER_ID == l.PLAYER_ID).map fun l =>
      merge_row s l

/-- One row of the displayed frame `final_df[cols]` (line 174): the six
columns Player, Matchup, Season PPG, Last 5 PPG, Trend (Delta), Status.
The REB/AST and id columns of the merge are dropped by this selection. -/
structure TrendRow where
  player : String
  matchup : String
  season_ppg : ℚ
  last5_ppg : ℚ
  delta : ℚ
  status : String
deriving DecidableEq

/-- The renaming (line 156), the `Matchup` column (line 153), the `Status`
column (line 171) and the final column selection (lines 174-175) applied to
one merged row. -/
def to_trend_row (games : List (String × String))
    (defense : List (String × DefEntry)) (m : MergedRow) : TrendRow :=
  { player := m.PLAYER_NAME
    matchup := analyze_matchup games defense m.TEAM_ID
    season_ppg := m.PTS_Season
    last5_ppg := m.PTS_L5
    delta := m.delta
    status := get_status m.delta }

/-- Insertion step of the descending sort on `Trend (Delta)`. -/
def insert_desc (r : TrendRow) : List TrendRow → List TrendRow
  | [] => [r]
  | x :: xs => if x.delta ≤ r.delta then r :: x :: xs else x :: insert_desc r xs

/-- `sort_values(by='Trend (Delta)', ascending=False)` (line 175), modelled
as an insertion sort on the `delta` field (the claims only use that the sort
permutes the rows). -/
def sortByDeltaDesc : List TrendRow → List TrendRow
  | [] => []
  | x :: xs => insert_desc x (sortByDeltaDesc xs)

/-- The record-construction pipeline in the body of `get_league_trends`
(lines 112-175), given the two stat frames and the schedule and defense
dicts: GP ≥ 3 filter, inner merge with delta, matchup and status columns,
column selection, descending sort on delta. -/
def trends_pipeline (season : List SeasonRow) (last5 : List L5Row)
    (games : List (String × String)) (defense : List (String × DefEntry)) :
    List TrendRow :=
  let filtered := last5.filter fun l => decide (3 ≤ l.GP)
  let merged := merge_frames season filtered
  sortByDeltaDesc (merged.map (to_trend_row games defense))

/-- The DataFrame returned by `get_league_trends`: its column list and its
rows. `pd.DataFrame()` (the `except` fallback at line 179) is the frame with
an empty column list and no rows. -/
structure TrendFrame where
  columns : List String
  rows : List TrendRow
deriving DecidableEq

/-- The column list of a successfully built trend frame (line 174). -/
def trend_columns : List String :=
  ["Player", "Matchup", "Season PPG", "Last 5 PPG", "Trend (Delta)", "Status"]

/-- The environment `get_league_trends` runs in: the two stat fetches (which
may fail), and the date and scoreboard fetch consumed by
`get_todays_games`. -/
structure TrendsEnv where
  season_stats : Except String (List SeasonRow)
  last5_stats : Except String (List L5Row)
  todays_date : String
  scoreboard : String → Except String (List GameRow)

/-- The call `get_defensive_rankings()` at line 128 of `nba_app.py`: the name
`get_defensive_rankings` is bound nowhere in the module, so python raises
`NameError` at this point of the `try` block, whatever the environment. -/
def call_get_defensive_rankings : Except String (List (String × DefEntry)) :=
  Except.error "NameError: name get_defensive_rankings is not defined"

/-- The `try` block of `get_league_trends` (lines 103-175): fetch both stat
windows, build the schedule dict (`get_todays_games` is itself total), call
the undefined `get_defensive_rankings`, then run the record pipeline. -/
def get_league_trends_body (env : TrendsEnv) : Except String TrendFrame := do
  let season ← env.season_stats
  let last5 ← env.last5_stats
  let games := get_todays_games env.todays_date env.scoreboard
  let defense ← call_get_defensive_rankings
  Except.ok { columns := trend_columns
              rows := trends_pipeline season last5 games defense }

/-- `get_league_trends` (lines 100-179): the `try` body with the blanket
`except Exception: return pd.DataFrame()` fallback. -/
def get_league_trends (env : TrendsEnv) : TrendFrame :=
  match get_league_trends_body env with
  | Except.ok f => f
  | Except.error _ => { columns := [], rows := [] }

/-! ### Helper lemmas -/

/-- Membership through one insertion step of the descending sort. -/
theorem mem_insert_desc {a r : TrendRow} {l : List TrendRow} :
    a ∈ insert_desc r l ↔ a = r ∨ a ∈ l := by
  induction l with
  | nil => simp [insert_desc]
  | cons x xs ih =>
    unfold insert_desc
    split
    · simp
    · simp only [List.mem_cons, ih]
      tauto

/-- The descending sort permutes its input: membership is preserved. -/
theorem mem_sortByDeltaDesc {a : TrendRow} {l : List TrendRow} :
    a ∈ sortByDeltaDesc l ↔ a ∈ l := by
  induction l with
  | nil => simp [sortByDeltaDesc]
  | cons x xs ih => simp [sortByDeltaDesc, mem_insert_desc, ih]

/-- Every pair present after a python dict assignment is the assigned pair or
was present before. -/
theorem mem_dict_insert {d : List (String × String)} {k v : String}
    {p : String × String} (h : p ∈ dict_insert d k v) : p = (k, v) ∨ p ∈ d := by
  unfold dict_insert at h
  split at h
  · rcases List.mem_map.mp h with ⟨q, hq, rfl⟩
    by_cases hqk : (q.1 == k) = true
    · left; simp [hqk]
    · right; simpa [hqk] using hq
  · rcases List.mem_append.mp h with h | h
    · right; exact h
    · left; simpa using h

/-- Every pair present after folding `schedule_insert` over the scoreboard
rows was present initially or is a verbatim (home, visitor) /
(visitor, home) pair of some row. -/
theorem mem_foldl_schedule_insert (rows : List GameRow)
    (d : List (String × String)) (p : String × String)
    (h : p ∈ rows.foldl schedule_insert d) :
    p ∈ d ∨ ∃ r ∈ rows,
      (p.1 = r.HOME_TEAM_ID ∧ p.2 = r.VISITOR_TEAM_ID) ∨
      (p.1 = r.VISITOR_TEAM_ID ∧ p.2 = r.HOME_TEAM_ID) := by
  induction rows generalizing d with
  | nil => exact Or.inl h
  | cons r rs ih =>
    rw [List.foldl_cons] at h
    rcases ih _ h with h' | ⟨r', hr', hp⟩
    · unfold schedule_insert at h'
      rcases mem_dict_insert h' with heq | h''
      · subst heq
        exact Or.inr ⟨r, by simp, Or.inr ⟨rfl, rfl⟩⟩
      · rcases mem_dict_insert h'' with heq | h3
        · subst heq
          exact Or.inr ⟨r, by simp, Or.inl ⟨rfl, rfl⟩⟩
        · exact Or.inl h3
    · exact Or.inr ⟨r', by simp [hr'], hp⟩

/-- Looking up a key of `l` in the association list that tags every element
of `l` with `g` yields its tag. -/
theorem lookup_map_pair {β : Type} (g : String → β) (t : String)
    (l : List String) (h : t ∈ l) :
    List.lookup t (l.map fun x => (x, g x)) = some (g t) := by
  induction l with
  | nil => cases h
  | cons x xs ih =>
    rw [List.map_cons, List.lookup_cons]
    by_cases hx : t = x
    · subst hx; simp
    · have hb : (t == x) = false := by simpa using hx
      rw [hb]
      rcases List.mem_cons.mp h with hx' | hmem
      · exact absurd hx' hx
      · exact ih hmem

/-- `find?` returns the first element satisfying the predicate: everything
before it fails the predicate. -/
theorem find?_first {α : Type} (p : α → Bool) (pre post : List α) (a : α)
    (hpre : ∀ x ∈ pre, p x = false) (ha : p a = true) :
    List.find? p (pre ++ a :: post) = some a := by
  induction pre with
  | nil =>
    rw [List.nil_append]
    exact List.find?_cons_of_pos _ ha
  | cons q qs ih =>
    have hq : p q = false := hpre q (by simp)
    rw [List.cons_append, List.find?_cons_of_neg _ (by simp [hq])]
    exact ih fun x hx => hpre x (by simp [hx])

/-! ### Claims -/

/-- C1: whatever the environment (success or failure of every fetch), the
name `get_defensive_rankings` is unbound, so the `try` body of
`get_league_trends` raises before a frame is built and the blanket `except`
returns `pd.DataFrame()` — the empty frame with no columns. The delta,
matchup, status and sort logic is therefore unreachable at the public
interface. -/
theorem get_league_trends_always_empty (env : TrendsEnv) :
    get_league_trends env = { columns := [], rows := [] } := by
  rcases env with ⟨ss, ls, td, sb⟩
  cases ss with
  | error e => rfl
  | ok season =>
    cases ls with
    | error e => rfl
    | ok last5 => rfl

/-- C3: `get_status` classifies by delta alone through one symmetric
threshold table: delta ≥ 4 gives the super-hot label, 2 ≤ delta < 4 the
heating-up label, delta ≤ −3 the ice-cold label, −3 < delta ≤ −1.5 the
cooling-down label, and every other delta (−1.5 < delta < 2) the steady
label, which the source spells "Zap"; concretely, delta 26.0 − 20.0 = 6.0 is
super hot and delta 0.5 is steady. -/
theorem get_status_thresholds :
    (∀ d : ℚ,
      (4 ≤ d → get_status d = "🔥 Super Hot") ∧
      (2 ≤ d ∧ d < 4 → get_status d = "🔥 Heating Up") ∧
      (d ≤ -3 → get_status d = "❄️ Ice Cold") ∧
      (-3 < d ∧ d ≤ -1.5 → get_status d = "❄️ Cooling Down") ∧
      (-1.5 < d ∧ d < 2 → get_status d = "Zap")) ∧
    get_status (26.0 - 20.0) = "🔥 Super Hot" ∧
    get_status 0.5 = "Zap" := by
  refine ⟨fun d => ⟨?_, ?_, ?_, ?_, ?_⟩,
    by norm_num [get_status], by norm_num [get_status]⟩ <;>
    · intro h
      try obtain ⟨ha, hb⟩ := h
      unfold get_status
      split_ifs <;>
        first
          | rfl
          | (exfalso; push_neg at *; linarith)

/-- C3 witness: the threshold theorem applied at delta 6. -/
theorem get_status_thresholds_witness :
    (4 : ℚ) ≤ 6 ∧ get_status 6 = "🔥 Super Hot" :=
  ⟨by norm_num, (get_status_thresholds.1 6).1 (by norm_num)⟩

/-- C4: `analyze_matchup` is a total function of the schedule entry, the
defense entry and the rating: no schedule entry gives "No Game" whatever the
defense table; a schedule entry whose opponent has no defense entry gives the
unknown-opponent label "vs Unknown"; otherwise rating > 116 gives the soft
label, rating < 112 the tough label, and 112 ≤ rating ≤ 116 the average
label. -/
theorem analyze_matchup_cases :
    (∀ games defense t, List.lookup t games = none →
      analyze_matchup games defense t = "No Game") ∧
    (∀ games defense t opp, List.lookup t games = some opp →
      List.lookup opp defense = none →
      analyze_matchup games defense t = "vs Unknown") ∧
    (∀ games defense t opp e, List.lookup t games = some opp →
      List.lookup opp defense = some e →
      ((116.0 < e.Rating →
         analyze_matchup games defense t = "vs " ++ e.Team ++ " (🟢 Soft)") ∧
       (e.Rating < 112.0 →
         analyze_matchup games defense t = "vs " ++ e.Team ++ " (🔴 Tough)") ∧
       (112.0 ≤ e.Rating ∧ e.Rating ≤ 116.0 →
         analyze_matchup games defense t = "vs " ++ e.Team ++ " (⚪ Avg)"))) := by
  refine ⟨?_, ?_, ?_⟩
  · intro games defense t hg
    simp only [analyze_matchup, hg]
  · intro games defense t opp hg hd
    simp only [analyze_matchup, hg, hd]
  · intro games defense t opp e hg hd
    simp only [analyze_matchup, hg, hd]
    refine ⟨?_, ?_, ?_⟩
    · intro h
      rw [if_pos h]
    · intro h
      rw [if_neg (by push_neg; linarith), if_pos h]
    · rintro ⟨h1, h2⟩
      rw [if_neg (by push_neg; linarith), if_neg (by push_neg; linarith)]

/-- C2: every record of the trend pipeline carries
`Trend (Delta) = Last 5 PPG − Season PPG` exactly: the delta column is
computed from the two points columns of the same merged row (line 124), so
the identity holds at read time for every produced record (per C1 the public
`get_league_trends` never emits a record, and this verifies the
record-construction logic of its body). -/
theorem trend_delta_eq (season : List SeasonRow) (last5 : List L5Row)
    (games : List (String × String)) (defense : List (String × DefEntry))
    (r : TrendRow) (hr : r ∈ trends_pipeline season last5 games defense) :
    r.delta = r.last5_ppg - r.season_ppg := by
  unfold trends_pipeline at hr
  rw [mem_sortByDeltaDesc] at hr
  rcases List.mem_map.mp hr with ⟨m, hm, rfl⟩
  unfold merge_frames at hm
  rcases List.mem_flatMap.mp hm with ⟨s, hs, hms⟩
  rcases List.mem_map.mp hms with ⟨l, hl, rfl⟩
  rfl

/-- A concrete season row: player 1, scoring 20 points per game. -/
def s_ex : SeasonRow :=
  { PLAYER_ID := 1, PLAYER_NAME := "Player One", TEAM_ID := "1610612737",
    PTS := 20, REB := 5, AST := 5 }

/-- A concrete last-5 row for the same player: 5 games, 26 points per game. -/
def l_ex : L5Row :=
  { PLAYER_ID := 1, GP := 5, PTS := 26, REB := 5, AST := 5 }

/-- C2 witness: the delta identity at a concrete one-player pipeline run. -/
theorem trend_delta_eq_witness :
    to_trend_row [] [] (merge_row s_ex l_ex) ∈ trends_pipeline [s_ex] [l_ex] [] [] ∧
    (to_trend_row [] [] (merge_row s_ex l_ex)).delta =
      (to_trend_row [] [] (merge_row s_ex l_ex)).last5_ppg -
        (to_trend_row [] [] (merge_row s_ex l_ex)).season_ppg := by
  have hmem : to_trend_row [] [] (merge_row s_ex l_ex) ∈
      trends_pipeline [s_ex] [l_ex] [] [] := by
    have : trends_pipeline [s_ex] [l_ex] [] [] =
        [to_trend_row [] [] (merge_row s_ex l_ex)] := rfl
    rw [this]
    exact List.mem_singleton.mpr rfl
  exact ⟨hmem, trend_delta_eq [s_ex] [l_ex] [] [] _ hmem⟩

/-- C10: every record of the trend pipeline is built from a season row and a
last-5 row of the same player whose recent games-played is at least 3: the
`GP ≥ 3` filter (line 113) runs before the merge, so no output record is
derived from a recent sample of fewer than 3 games. -/
theorem trend_min_games (season : List SeasonRow) (last5 : List L5Row)
    (games : List (String × String)) (defense : List (String × DefEntry))
    (r : TrendRow) (hr : r ∈ trends_pipeline season last5 games defense) :
    ∃ s ∈ season, ∃ l ∈ last5, 3 ≤ l.GP ∧ s.PLAYER_ID = l.PLAYER_ID ∧
      r = to_trend_row games defense (merge_row s l) := by
  unfold trends_pipeline at hr
  rw [mem_sortByDeltaDesc] at hr
  rcases List.mem_map.mp hr with ⟨m, hm, rfl⟩
  unfold merge_frames at hm
  rcases List.mem_flatMap.mp hm with ⟨s, hs, hms⟩
  rcases List.mem_map.mp hms with ⟨l, hl, rfl⟩
  rcases List.mem_filter.mp hl with ⟨hl', hid⟩
  rcases List.mem_filter.mp hl' with ⟨hl5, hgp⟩
  exact ⟨s, hs, l, hl5, of_decide_eq_true hgp, eq_of_beq hid, rfl⟩

/-- C10 witness: the origin of the concrete one-player pipeline record. -/
theorem trend_min_games_witness :
    to_trend_row [] [] (merge_row s_ex l_ex) ∈ trends_pipeline [s_ex] [l_ex] [] [] ∧
    ∃ s ∈ [s_ex], ∃ l ∈ [l_ex], 3 ≤ l.GP ∧ s.PLAYER_ID = l.PLAYER_ID ∧
      to_trend_row [] [] (merge_row s_ex l_ex) = to_trend_row [] [] (merge_row s l) := by
  have hmem : to_trend_row [] [] (merge_row s_ex l_ex) ∈
      trends_pipeline [s_ex] [l_ex] [] [] := by
    have : trends_pipeline [s_ex] [l_ex] [] [] =
        [to_trend_row [] [] (merge_row s_ex l_ex)] := rfl
    rw [this]
    exact List.mem_singleton.mpr rfl
  exact ⟨hmem, trend_min_games [s_ex] [l_ex] [] [] _ hmem⟩

/-- C4 witness: the case analysis applied to a concrete schedule and defense
table with opponent rating 118. -/
theorem analyze_matchup_cases_witness :
    List.lookup "1610612737" [("1610612737", "1610612738")] = some "1610612738" ∧
    List.lookup "1610612738" [("1610612738", DefEntry.mk "Hawks Opp" 118.0)] =
      some (DefEntry.mk "Hawks Opp" 118.0) ∧
    (116.0 : ℚ) < 118.0 ∧
    analyze_matchup [("1610612737", "1610612738")]
      [("1610612738", DefEntry.mk "Hawks Opp" 118.0)] "1610612737" =
      "vs Hawks Opp (🟢 Soft)" :=
  ⟨rfl, rfl, by norm_num,
    (analyze_matchup_cases.2.2 [("1610612737", "1610612738")]
      [("1610612738", DefEntry.mk "Hawks Opp" 118.0)] "1610612737" "1610612738"
      (DefEntry.mk "Hawks Opp" 118.0) rfl rfl).1 (by norm_num)⟩

/-- C5 (spec-modelled, the function is absent from the repository):
`get_defensive_rankings` always yields exactly 30 entries over the 30
distinct statically-known teams — also when the live fetch fails — and on
failure every team's entry carries the fixed neutral rating 114.0, so no
team id is ever missing. -/
theorem defensive_rankings_total_fallback :
    STATIC_TEAMS.length = 30 ∧ STATIC_TEAMS.Nodup ∧
    (∀ live, (get_defensive_rankings live).length = 30) ∧
    (∀ live t, t ∈ STATIC_TEAMS →
      (List.lookup t (get_defensive_rankings live)).isSome = true) ∧
    (∀ t, t ∈ STATIC_TEAMS →
      List.lookup t (get_defensive_rankings none) =
        some (DefEntry.mk t 114.0)) := by
  refine ⟨rfl, by decide, fun live => rfl, ?_, ?_⟩
  · intro live t ht
    rw [get_defensive_rankings, lookup_map_pair _ t STATIC_TEAMS ht]
    rfl
  · intro t ht
    rw [get_defensive_rankings, lookup_map_pair _ t STATIC_TEAMS ht]

/-- C5 witness: the fallback entry of the first statically-known team. -/
theorem defensive_rankings_total_fallback_witness :
    "1610612737" ∈ STATIC_TEAMS ∧
    List.lookup "1610612737" (get_defensive_rankings none) =
      some (DefEntry.mk "1610612737" 114.0) :=
  ⟨by decide, defensive_rankings_total_fallback.2.2.2.2 "1610612737" (by decide)⟩

/-- An environment in which every modelled fetch succeeds: both stat windows
return one row for player 1 and the scoreboard returns an empty slate. -/
def env_ok : TrendsEnv :=
  { season_stats := Except.ok [s_ex]
    last5_stats := Except.ok [l_ex]
    todays_date := "01/15/2026"
    scoreboard := fun _ => Except.ok [] }

/-- C6 (code bug): the failure path of `get_league_trends` — which every
call takes, the body raising NameError at line 128 — returns `pd.DataFrame()`,
whose column set is empty rather than the six display columns the claim (and
the consumer at line 323) requires; no exception escapes, but the empty
result is not correctly shaped. -/
theorem league_trends_failure_shape :
    (get_league_trends env_ok).columns = [] ∧
    trend_columns =
      ["Player", "Matchup", "Season PPG", "Last 5 PPG", "Trend (Delta)", "Status"] ∧
    (get_league_trends env_ok).columns ≠ trend_columns :=
  ⟨rfl, rfl, by decide⟩

/-- A scoreboard environment with no games under the current Eastern date
and one game under the following calendar date. -/
def rollover_scoreboard : String → Except String (List GameRow) := fun date =>
  if date == "01/16/2026" then
    Except.ok [{ HOME_TEAM_ID := "1610612747", VISITOR_TEAM_ID := "1610612738" }]
  else Except.ok []

/-- C7 counterexample: `get_todays_games` fetches only the single current
Eastern date; a game listed under the following calendar date — present in
the environment — is absent from the returned mapping, so the claim that at
least two dates are probed and their union returned is false of the code. -/
theorem todays_games_single_date_counterexample :
    get_todays_games "01/15/2026" rollover_scoreboard = [] ∧
    rollover_scoreboard "01/16/2026" =
      Except.ok [{ HOME_TEAM_ID := "1610612747", VISITOR_TEAM_ID := "1610612738" }] ∧
    List.lookup "1610612747" (get_todays_games "01/15/2026" rollover_scoreboard) =
      none :=
  ⟨rfl, rfl, rfl⟩

/-- C7 amended: `get_todays_games` probes exactly one calendar date — the
current date in US/Eastern — and its result is determined by the scoreboard
of that single date alone. -/
theorem todays_games_single_date (today : String)
    (sb sb' : String → Except String (List GameRow))
    (h : sb today = sb' today) :
    get_todays_games today sb = get_todays_games today sb' := by
  unfold get_todays_games
  rw [h]

/-- C7 witness: the single-date dependence applied to the rollover
environment and the all-empty scoreboard, which agree on the probed date. -/
theorem todays_games_single_date_witness :
    rollover_scoreboard "01/15/2026" =
      (fun _ => Except.ok ([] : List GameRow)) "01/15/2026" ∧
    get_todays_games "01/15/2026" rollover_scoreboard =
      get_todays_games "01/15/2026" (fun _ => Except.ok []) :=
  ⟨rfl, todays_games_single_date "01/15/2026" rollover_scoreboard
    (fun _ => Except.ok []) rfl⟩

/-- A scoreboard whose home id arrives in float-like string form. -/
def float_id_scoreboard : String → Except String (List GameRow) := fun _ =>
  Except.ok [{ HOME_TEAM_ID := "1610612747.0", VISITOR_TEAM_ID := "1610612738" }]

/-- C8 counterexample: a float-like team id "1610612747.0" is stored verbatim
as a schedule key — not coerced to the integer-string form "1610612747" — so
a downstream lookup with the canonical integer-string form misses while the
float-like form hits; the claimed normalization does not happen. -/
theorem schedule_ids_not_normalized :
    get_todays_games "01/15/2026" float_id_scoreboard =
      [("1610612747.0", "1610612738"), ("1610612738", "1610612747.0")] ∧
    List.lookup "1610612747"
      (get_todays_games "01/15/2026" float_id_scoreboard) = none ∧
    List.lookup "1610612747.0"
      (get_todays_games "01/15/2026" float_id_scoreboard) = some "1610612738" := by
  refine ⟨by decide, by decide, by decide⟩

/-- C8 amended: team identifiers are used exactly as they arrive, with no
normalization: every key/value pair of the schedule mapping is the verbatim
(home, visitor) or (visitor, home) id pair of some scoreboard row, so
schedule keys agree with downstream lookups only when the sources already
agree in form. -/
theorem schedule_ids_verbatim (today : String)
    (sb : String → Except String (List GameRow)) (board : List GameRow)
    (hsb : sb today = Except.ok board) (p : String × String)
    (hp : p ∈ get_todays_games today sb) :
    ∃ r ∈ board,
      (p.1 = r.HOME_TEAM_ID ∧ p.2 = r.VISITOR_TEAM_ID) ∨
      (p.1 = r.VISITOR_TEAM_ID ∧ p.2 = r.HOME_TEAM_ID) := by
  unfold get_todays_games at hp
  simp only [hsb] at hp
  split at hp
  · cases hp
  · rcases mem_foldl_schedule_insert board [] p hp with h | h
    · cases h
    · exact h

/-- C8 witness: the verbatim-origin property applied to the float-id
scoreboard at its first stored pair. -/
theorem schedule_ids_verbatim_witness :
    float_id_scoreboard "01/15/2026" =
      Except.ok [{ HOME_TEAM_ID := "1610612747.0", VISITOR_TEAM_ID := "1610612738" }] ∧
    ("1610612747.0", "1610612738") ∈ get_todays_games "01/15/2026" float_id_scoreboard ∧
    ∃ r ∈ [GameRow.mk "1610612747.0" "1610612738"],
      (("1610612747.0", "1610612738").1 = r.HOME_TEAM_ID ∧
        ("1610612747.0", "1610612738").2 = r.VISITOR_TEAM_ID) ∨
      (("1610612747.0", "1610612738").1 = r.VISITOR_TEAM_ID ∧
        ("1610612747.0", "1610612738").2 = r.HOME_TEAM_ID) :=
  ⟨rfl, by decide,
    schedule_ids_verbatim "01/15/2026" float_id_scoreboard
      [GameRow.mk "1610612747.0" "1610612738"] rfl
      ("1610612747.0", "1610612738") (by decide)⟩

/-- C9: the injury normalizer adopts, per row, the first roster name that is
a substring of the raw name together with that name's team code in the
status value; with no substring match the raw name is kept with team
"Unknown"; and on roster {"Jayson Tatum": "BOS"} with raw row
"J. TatumJayson Tatum" the stored key is "Jayson Tatum" with "BOS" embedded
in the status. -/
theorem injury_first_match :
    (∀ (pre post : List (String × String)) (n t dirty status : String),
      (∀ p ∈ pre, str_in p.1 dirty = false) → str_in n dirty = true →
      injury_row_entry (pre ++ (n, t) :: post) dirty status =
        (n, status ++ " (" ++ t ++ ")")) ∧
    (∀ (tm : List (String × String)) (dirty status : String),
      (∀ p ∈ tm, str_in p.1 dirty = false) →
      injury_row_entry tm dirty status = (dirty, status ++ " (Unknown)")) ∧
    get_live_injuries [("Jayson Tatum", "BOS")]
      [("J. TatumJayson Tatum", "Out for season")] =
      [("Jayson Tatum", "Out for season (BOS)")] := by
  refine ⟨?_, ?_, by decide⟩
  · intro pre post n t dirty status hpre hn
    unfold injury_row_entry
    rw [find?_first (fun p => str_in p.1 dirty) pre post (n, t)
      (fun x hx => hpre x hx) hn]
  · intro tm dirty status htm
    unfold injury_row_entry
    rw [List.find?_eq_none.mpr fun p hp => by simp [htm p hp]]

/-- C9 witness: the first-match rule applied to the Tatum roster and row. -/
theorem injury_first_match_witness :
    str_in "Jayson Tatum" "J. TatumJayson Tatum" = true ∧
    injury_row_entry [("Jayson Tatum", "BOS")] "J. TatumJayson Tatum"
      "Out for season" = ("Jayson Tatum", "Out for season (BOS)") :=
  ⟨by decide,
    injury_first_match.1 [] [] "Jayson Tatum" "BOS" "J. TatumJayson Tatum"
      "Out for season" (fun p hp => absurd hp (List.not_mem_nil p)) (by decide)⟩
